import Mathlib

/-!
# gitutil: clone / update helpers of krew (`internal/gitutil/git.go`)

A shallow embedding of the Go package `gitutil`.  The functions of the package
are glue around library calls (`os.Stat`, go-git, `fmt`) and around `Exec`,
whose declaration is commented out in the file.  Those calls are taken as the
fields of an environment `Env σ` acting on an external state `σ` (the disk);
the embedded functions thread a `World σ`, which pairs the disk with the list
of the effectful calls made so far.

Go values that may be `nil` (errors, pointers) are `Option`s.  A call that
dereferences a nil pointer or indexes an empty slice ends in
`Outcome.panicked`.
-/

namespace gitutil

/-! ## Errors -/

/-- The error numbers that matter to `os.IsNotExist`. -/
inductive Errno where
  | ENOENT
  | EACCES
  | ENOTDIR
  | EIO
  deriving DecidableEq

/-- Go `error` values (non-nil).  `pathError` is the `*fs.PathError` that the
`os` package returns, `plain` any other library error, `wrapf` the value built
by `errors.Wrapf(cause, format, args...)`; the format and its arguments are
kept as written at the call site. -/
inductive GoError where
  | pathError (op path : String) (errno : Errno)
  | plain (msg : String)
  | wrapf (cause : GoError) (format : String) (args : List String)
  deriving DecidableEq

/-- Go `os.IsNotExist(err)`: false on nil; a path error is looked through to its
error number; the wrappers of `github.com/pkg/errors` are not looked through. -/
def IsNotExist : Option GoError → Bool
  | some (.pathError _ _ .ENOENT) => true
  | _ => false

/-- Go `errors.Wrapf(err, format, args...)`: nil when `err` is nil. -/
def Wrapf (err : Option GoError) (format : String) (args : List String) : Option GoError :=
  match err with
  | none => none
  | some e => some (.wrapf e format args)

/-! ## Library values -/

/-- The part of `os.FileInfo` that is read: `IsDir()`. -/
structure FileInfo where
  isDir : Bool
  deriving DecidableEq

/-- What `os.Stat` returns: a file info and a nil error, or a nil file info and
an error. -/
inductive StatResult where
  | ok (f : FileInfo)
  | error (e : GoError)
  deriving DecidableEq

/-- The fields of `git.CloneOptions` that `EnsureCloned` sets. -/
structure CloneOptions where
  URL : String
  RecurseSubmodules : Nat
  deriving DecidableEq

/-- go-git `DefaultSubmoduleRecursionDepth`. -/
def DefaultSubmoduleRecursionDepth : Nat := 10

/-- A non-nil `*git.Repository`, named by the directory it lives in. -/
structure Repository where
  dir : String
  deriving DecidableEq

/-- A non-nil `*plumbing.Reference`; `Hash()` reads `hash`. -/
structure Reference where
  hash : String
  deriving DecidableEq

/-- A non-nil `*object.Commit`; `text` is what its `String()` prints. -/
structure Commit where
  text : String
  deriving DecidableEq

/-- A `*config.RemoteConfig`: the remote's name and its URL list. -/
structure RemoteConfig where
  Name : String
  URLs : List String
  deriving DecidableEq

/-- A non-nil `*git.Remote`; `Config()` reads `config`. -/
structure Remote where
  config : RemoteConfig
  deriving DecidableEq

/-- The values `GetRemoteURL` can hand back in its first result: the signature
says `string`, the `return` statement passes on the `int` of `fmt.Println`. -/
inductive GoValue where
  | str (s : String)
  | int (n : Int)
  deriving DecidableEq

/-! ## Effects -/

/-- The effectful calls of the package, in the order they are made. -/
inductive Call where
  | info (format : String) (args : List String)
  | println (text : String)
  | plainClone (path : String) (isBare : Bool) (opts : CloneOptions)
  | exec (pwd : String) (args : List String)
  deriving DecidableEq

/-- The disk together with the calls made so far. -/
structure World (σ : Type) where
  fs : σ
  trace : List Call
  deriving DecidableEq

/-- Append one call to the trace. -/
def World.log {σ : Type} (w : World σ) (c : Call) : World σ :=
  { w with trace := w.trace ++ [c] }

/-- How a Go call ends: it returns a value or it panics. -/
inductive Outcome (α : Type) where
  | returned (a : α)
  | panicked
  deriving DecidableEq

/-- The library calls and the identifiers that `git.go` uses without declaring.

* `join` is `filepath.Join` of two elements; `stat` is `os.Stat`, which returns
  either a file info or an error;
* `plainClone`, `plainOpen`, `head`, `commitObject`, `remote` are the go-git
  calls, each returning the Go pair (pointer, error);
* `println` is the `(n int, err error)` result of `fmt.Println`;
* `exec` is `Exec(pwd, args...)`, whose body is commented out in the file;
* `url`, `directory` are the two identifiers passed to `Info` in
  `EnsureCloned`, which the file does not declare. -/
structure Env (σ : Type) where
  join : String → String → String
  stat : String → σ → StatResult
  plainClone : String → Bool → CloneOptions → σ → Option Repository × Option GoError × σ
  plainOpen : String → σ → Option Repository × Option GoError
  head : Repository → σ → Option Reference × Option GoError
  commitObject : Repository → String → σ → Option Commit × Option GoError
  remote : Repository → String → σ → Option Remote × Option GoError
  println : String → σ → Int × Option GoError
  exec : String → List String → σ → String × Option GoError × σ
  url : String
  directory : String

/-! ## The package -/

/-- Go `CheckIfError`: returns at once on nil; otherwise it builds
`errors.Wrapf(err, "error: %q")`, drops the value and returns. -/
def CheckIfError (err : Option GoError) : Unit :=
  match err with
  | none => ()
  | some e =>
    let _dropped := Wrapf (some e) "error: %q" []
    ()

/-- Go `Info(format, args...)`: one line on standard output. -/
def Info {σ : Type} (format : String) (args : List String) (w : World σ) : World σ :=
  w.log (.info format args)

/-- What `fmt.Println` prints for a `*object.Commit`: a nil pointer prints as
`<nil>`. -/
def commitText : Option Commit → String
  | none => "<nil>"
  | some c => c.text

/-- Go `IsGitCloned(gitPath)`. -/
def IsGitCloned {σ : Type} (env : Env σ) (gitPath : String) (fs : σ) : Bool × Option GoError :=
  match env.stat (env.join gitPath ".git") fs with
  | .error e =>
    if IsNotExist (some e) then (false, none)
    else (false, some e)
  | .ok f =>
    if IsNotExist none then (false, none)
    else (f.isDir, none)

/-- Go `EnsureCloned(uri, destinationPath)`.  `r.Head()` on a nil repository and
`ref.Hash()` on a nil reference read a field of the receiver and panic. -/
def EnsureCloned {σ : Type} (env : Env σ) (uri destinationPath : String) (w : World σ) :
    Outcome (Option GoError) × World σ :=
  match IsGitCloned env destinationPath w.fs with
  | (_, some err) => (.returned (some err), w)
  | (false, none) =>
    let w1 := Info "git clone %s %s --recursive" [env.url, env.directory] w
    let opts : CloneOptions := { URL := uri, RecurseSubmodules := DefaultSubmoduleRecursionDepth }
    match env.plainClone destinationPath false opts w1.fs with
    | (r, err, fs2) =>
      let w2 : World σ := { fs := fs2, trace := w1.trace ++ [.plainClone destinationPath false opts] }
      let _ := CheckIfError err
      match r with
      | none => (.panicked, w2)
      | some repo =>
        match env.head repo w2.fs with
        | (ref, err) =>
          let _ := CheckIfError err
          match ref with
          | none => (.panicked, w2)
          | some rf =>
            match env.commitObject repo rf.hash w2.fs with
            | (commit, err) =>
              let _ := CheckIfError err
              let w3 := w2.log (.println (commitText commit))
              (.returned err, w3)
  | (true, none) => (.returned none, w)

/-- Go `updateAndCleanUntracked(destinationPath)`. -/
def updateAndCleanUntracked {σ : Type} (env : Env σ) (destinationPath : String) (w : World σ) :
    Option GoError × World σ :=
  match env.exec destinationPath ["fetch", "-v"] w.fs with
  | (_, err1, fs1) =>
    let w1 : World σ := { fs := fs1, trace := w.trace ++ [.exec destinationPath ["fetch", "-v"]] }
    match err1 with
    | some e => (Wrapf (some e) "fetch index at %q failed" [destinationPath], w1)
    | none =>
      match env.exec destinationPath ["reset", "--hard", "@\x7bupstream\x7d"] w1.fs with
      | (_, err2, fs2) =>
        let w2 : World σ :=
          { fs := fs2, trace := w1.trace ++ [.exec destinationPath ["reset", "--hard", "@\x7bupstream\x7d"]] }
        match err2 with
        | some e => (Wrapf (some e) "reset index at %q failed" [destinationPath], w2)
        | none =>
          match env.exec destinationPath ["clean", "-xfd"] w2.fs with
          | (_, err3, fs3) =>
            let w3 : World σ :=
              { fs := fs3, trace := w2.trace ++ [.exec destinationPath ["clean", "-xfd"]] }
            (Wrapf err3 "clean index at %q failed" [destinationPath], w3)

/-- Go `EnsureUpdated(uri, destinationPath)`. -/
def EnsureUpdated {σ : Type} (env : Env σ) (uri destinationPath : String) (w : World σ) :
    Outcome (Option GoError) × World σ :=
  match EnsureCloned env uri destinationPath w with
  | (.panicked, w1) => (.panicked, w1)
  | (.returned (some err), w1) => (.returned (some err), w1)
  | (.returned none, w1) =>
    match updateAndCleanUntracked env destinationPath w1 with
    | (err, w2) => (.returned err, w2)

/-- Go `GetRemoteURL(dir)`.  `r.Remote` on a nil repository and `origin.Config()`
on a nil remote read a field of the receiver and panic; `URLs[0]` panics on an
empty slice.  The function returns what `fmt.Println(originURL)` returns. -/
def GetRemoteURL {σ : Type} (env : Env σ) (dir : String) (w : World σ) :
    Outcome (GoValue × Option GoError) × World σ :=
  match env.plainOpen dir w.fs with
  | (r, err) =>
    let _ := CheckIfError err
    let w1 := Info "git config --get remote.origin.url" [] w
    match r with
    | none => (.panicked, w1)
    | some repo =>
      match env.remote repo "origin" w1.fs with
      | (origin, err) =>
        let _ := CheckIfError err
        match origin with
        | none => (.panicked, w1)
        | some o =>
          match o.config.URLs with
          | [] => (.panicked, w1)
          | originURL :: _ =>
            match env.println originURL w1.fs with
            | (n, err) => (.returned (.int n, err), w1.log (.println originURL))

/-! ## A small disk for the examples -/

/-- A disk reduced to what `os.Stat` on a `.git` entry can see: the `.git`
entries that are directories, those that are regular files, and those whose
parent cannot be searched. -/
structure Disk where
  gitDirs : List String
  gitFiles : List String
  denied : List String
  deriving DecidableEq

/-- The `os.Stat` of the example disk. -/
def Disk.stat (q : String) (d : Disk) : StatResult :=
  if q ∈ d.denied then .error (.pathError "stat" q .EACCES)
  else if q ∈ d.gitDirs then .ok { isDir := true }
  else if q ∈ d.gitFiles then .ok { isDir := false }
  else .error (.pathError "stat" q .ENOENT)

/-- An environment over the example disk in which every git step succeeds: a
clone creates the `.git` directory, the origin remote has one URL. -/
def demoEnv : Env Disk where
  join a b := a ++ "/" ++ b
  stat := Disk.stat
  plainClone path _ _ d := (some { dir := path }, none, { d with gitDirs := (path ++ "/.git") :: d.gitDirs })
  plainOpen dir d :=
    if (dir ++ "/.git") ∈ d.gitDirs then (some { dir := dir }, none)
    else (none, some (.plain "repository does not exist"))
  head _ _ := (some { hash := "6ecf0ef2" }, none)
  commitObject _ h _ := (some { text := "commit " ++ h }, none)
  remote _ name _ := (some { config := { Name := name, URLs := ["git@example.com:repo.git"] } }, none)
  println s _ := (s.length + 1, none)
  exec _ _ d := ("", none, d)
  url := ""
  directory := ""

/-- The empty example disk with an empty trace. -/
def emptyWorld : World Disk :=
  { fs := { gitDirs := [], gitFiles := [], denied := [] }, trace := [] }

/-- A disk given by its entries: the paths that are directories and the paths
that are regular files. -/
structure Tree where
  dirs : List String
  files : List String
  deriving DecidableEq

/-- The `os.Stat` of a `Tree`: an entry is reported with its kind; a name looked
up under a regular file fails with ENOTDIR; anything else does not exist. -/
def Tree.stat (q : String) (t : Tree) : StatResult :=
  if q ∈ t.dirs then .ok { isDir := true }
  else if q ∈ t.files then .ok { isDir := false }
  else if q ∈ t.files.map (fun f => f ++ "/.git") then .error (.pathError "stat" q .ENOTDIR)
  else .error (.pathError "stat" q .ENOENT)

/-- An environment over a `Tree`; only `join` and `stat` matter to `IsGitCloned`,
the git calls all succeed and leave the tree as it is. -/
def treeEnv : Env Tree where
  join a b := a ++ "/" ++ b
  stat := Tree.stat
  plainClone path _ _ t := (some { dir := path }, none, t)
  plainOpen dir _ := (some { dir := dir }, none)
  head _ _ := (some { hash := "6ecf0ef2" }, none)
  commitObject _ h _ := (some { text := "commit " ++ h }, none)
  remote _ name _ := (some { config := { Name := name, URLs := ["git@example.com:repo.git"] } }, none)
  println s _ := (s.length + 1, none)
  exec _ _ t := ("", none, t)
  url := ""
  directory := ""

/-- An example tree: the directory `/tmp/d` and the regular file `/tmp/f`, with no
`.git` entry anywhere. -/
def plainTree : Tree :=
  { dirs := ["/tmp", "/tmp/d"], files := ["/tmp/f"] }

/-- An example world in which `/repo` is a working copy. -/
def clonedWorld : World Disk :=
  { fs := { gitDirs := ["/repo/.git"], gitFiles := [], denied := [] }, trace := [] }

/-- The error of the failing clones of the examples. -/
def cloneError : GoError := .plain "authentication required"

/-- An example environment whose clone fails before a repository exists:
`PlainClone` returns `(nil, cloneError)`. -/
def cloneFailsNilEnv : Env Disk :=
  { demoEnv with plainClone := fun _ _ _ d => (none, some cloneError, d) }

/-- An example environment whose clone fails late (the checkout is there, a
submodule could not be fetched): `PlainClone` returns the repository together
with `cloneError`. -/
def cloneFailsLateEnv : Env Disk :=
  { demoEnv with
    plainClone := fun path _ _ d =>
      (some { dir := path }, some cloneError, { d with gitDirs := (path ++ "/.git") :: d.gitDirs }) }

/-- An example environment whose repositories have no `origin` remote. -/
def noOriginEnv : Env Disk :=
  { demoEnv with remote := fun _ _ _ => (none, some (.plain "remote not found")) }

/-- An example environment whose `origin` remote has no URL. -/
def noURLEnv : Env Disk :=
  { demoEnv with remote := fun _ name _ => (some { config := { Name := name, URLs := [] } }, none) }

/-- An example environment in which the git subcommand `step` fails with exit
status 1 and every other one succeeds. -/
def execFailsEnv (step : String) : Env Disk :=
  { demoEnv with
    exec := fun _ args d =>
      if args.head? = some step then ("", some (.plain "exit status 1"), d) else ("", none, d) }

/-! ## Names for the steps of `updateAndCleanUntracked` -/

/-- Whether a call is an `Exec`. -/
def Call.isExec : Call → Bool
  | .exec _ _ => true
  | _ => false

/-- The three `Exec` calls of `updateAndCleanUntracked`, in source order. -/
def gitSteps (destinationPath : String) : List Call :=
  [.exec destinationPath ["fetch", "-v"],
   .exec destinationPath ["reset", "--hard", "@\x7bupstream\x7d"],
   .exec destinationPath ["clean", "-xfd"]]

/-- The error of `git fetch -v` run on the disk `fs`. -/
def fetchErr {σ : Type} (env : Env σ) (p : String) (fs : σ) : Option GoError :=
  (env.exec p ["fetch", "-v"] fs).2.1

/-- The disk after `git fetch -v`. -/
def fetchFs {σ : Type} (env : Env σ) (p : String) (fs : σ) : σ :=
  (env.exec p ["fetch", "-v"] fs).2.2

/-- The error of `git reset --hard @{upstream}` run after the fetch. -/
def resetErr {σ : Type} (env : Env σ) (p : String) (fs : σ) : Option GoError :=
  (env.exec p ["reset", "--hard", "@\x7bupstream\x7d"] (fetchFs env p fs)).2.1

/-- The disk after the fetch and the reset. -/
def resetFs {σ : Type} (env : Env σ) (p : String) (fs : σ) : σ :=
  (env.exec p ["reset", "--hard", "@\x7bupstream\x7d"] (fetchFs env p fs)).2.2

/-- The error of `git clean -xfd` run after the fetch and the reset. -/
def cleanErr {σ : Type} (env : Env σ) (p : String) (fs : σ) : Option GoError :=
  (env.exec p ["clean", "-xfd"] (resetFs env p fs)).2.1

end gitutil

namespace gitutil

/-! ## IsGitCloned -/

/-- C1: the boolean of `IsGitCloned p` is true exactly when `os.Stat` on
`p/.git` succeeded and its result is a directory; a `.git` that is a regular
file gives `(false, nil)`, a `.git` that is a directory gives `(true, nil)`. -/
theorem IsGitCloned_true_iff_stat_dir {σ : Type} (env : Env σ) (p : String) (fs : σ) :
    ((IsGitCloned env p fs).1 = true ↔
        ∃ f, env.stat (env.join p ".git") fs = .ok f ∧ f.isDir = true) ∧
      (env.stat (env.join p ".git") fs = .ok { isDir := false } →
        IsGitCloned env p fs = (false, none)) ∧
      (env.stat (env.join p ".git") fs = .ok { isDir := true } →
        IsGitCloned env p fs = (true, none)) := by
  refine ⟨?_, ?_, ?_⟩
  · unfold IsGitCloned
    cases hst : env.stat (env.join p ".git") fs with
    | error e =>
      by_cases hne : IsNotExist (some e) = true <;> simp [hne]
    | ok f => simp [IsNotExist]
  · intro hst
    simp [IsGitCloned, hst, IsNotExist]
  · intro hst
    simp [IsGitCloned, hst, IsNotExist]

/-- C1 on the example disk: `/repo/.git` is a directory, `/sub/.git` a regular
file, `/none/.git` is missing. -/
theorem IsGitCloned_true_iff_stat_dir_witness :
    (∃ f, demoEnv.stat (demoEnv.join "/repo" ".git")
        { gitDirs := ["/repo/.git"], gitFiles := ["/sub/.git"], denied := [] } = .ok f ∧
        f.isDir = true) ∧
      (IsGitCloned demoEnv "/repo"
        { gitDirs := ["/repo/.git"], gitFiles := ["/sub/.git"], denied := [] }).1 = true ∧
      IsGitCloned demoEnv "/sub"
        { gitDirs := ["/repo/.git"], gitFiles := ["/sub/.git"], denied := [] } = (false, none) ∧
      IsGitCloned demoEnv "/repo"
        { gitDirs := ["/repo/.git"], gitFiles := ["/sub/.git"], denied := [] } = (true, none) :=
  ⟨⟨{ isDir := true }, by decide, rfl⟩,
    (IsGitCloned_true_iff_stat_dir demoEnv "/repo"
      { gitDirs := ["/repo/.git"], gitFiles := ["/sub/.git"], denied := [] }).1.2
        ⟨{ isDir := true }, by decide, rfl⟩,
    (IsGitCloned_true_iff_stat_dir demoEnv "/sub"
      { gitDirs := ["/repo/.git"], gitFiles := ["/sub/.git"], denied := [] }).2.1 (by decide),
    (IsGitCloned_true_iff_stat_dir demoEnv "/repo"
      { gitDirs := ["/repo/.git"], gitFiles := ["/sub/.git"], denied := [] }).2.2 (by decide)⟩

/-- C2 as stated fails: in the example tree `/tmp/f` is present (a regular file),
nothing is a `.git` entry, so `/tmp/f` holds no metadata directory, yet
`IsGitCloned "/tmp/f"` is not `(false, nil)`: the stat fails with ENOTDIR, which
is not a not-exist error, and that error is returned. -/
theorem IsGitCloned_regular_file_error :
    "/tmp/f" ∈ plainTree.files ∧
      (∀ f, treeEnv.stat (treeEnv.join "/tmp/f" ".git") plainTree ≠ .ok f) ∧
      treeEnv.stat (treeEnv.join "/tmp/f" ".git") plainTree
        = .error (.pathError "stat" "/tmp/f/.git" .ENOTDIR) ∧
      IsGitCloned treeEnv "/tmp/f" plainTree
        = (false, some (.pathError "stat" "/tmp/f/.git" .ENOTDIR)) ∧
      IsGitCloned treeEnv "/tmp/f" plainTree ≠ (false, none) := by
  have hst : treeEnv.stat (treeEnv.join "/tmp/f" ".git") plainTree
      = .error (.pathError "stat" "/tmp/f/.git" .ENOTDIR) := by decide
  refine ⟨by decide, ?_, hst, by decide, by decide⟩
  intro f hf
  rw [hst] at hf
  cases hf

/-- C2, amended: when `os.Stat` on `p/.git` fails with a not-exist error (`p`
missing, or `p` a directory without a `.git` entry), `IsGitCloned p` returns
`(false, nil)`. -/
theorem IsGitCloned_not_exist {σ : Type} (env : Env σ) (p : String) (fs : σ) (e : GoError)
    (hst : env.stat (env.join p ".git") fs = .error e)
    (hne : IsNotExist (some e) = true) :
    IsGitCloned env p fs = (false, none) := by
  simp [IsGitCloned, hst, hne]

/-- C2, amended, on the example tree: `/missing` does not exist, `/tmp/d` is a
directory without a `.git` entry; both give `(false, nil)`. -/
theorem IsGitCloned_not_exist_witness :
    (treeEnv.stat (treeEnv.join "/missing" ".git") plainTree
        = .error (.pathError "stat" "/missing/.git" .ENOENT) ∧
      IsNotExist (some (.pathError "stat" "/missing/.git" .ENOENT)) = true ∧
      IsGitCloned treeEnv "/missing" plainTree = (false, none)) ∧
    ("/tmp/d" ∈ plainTree.dirs ∧
      treeEnv.stat (treeEnv.join "/tmp/d" ".git") plainTree
        = .error (.pathError "stat" "/tmp/d/.git" .ENOENT) ∧
      IsGitCloned treeEnv "/tmp/d" plainTree = (false, none)) :=
  ⟨⟨by decide, by decide,
      IsGitCloned_not_exist treeEnv "/missing" plainTree
        (.pathError "stat" "/missing/.git" .ENOENT) (by decide) (by decide)⟩,
    ⟨by decide, by decide,
      IsGitCloned_not_exist treeEnv "/tmp/d" plainTree
        (.pathError "stat" "/tmp/d/.git" .ENOENT) (by decide) (by decide)⟩⟩

/-- C3: when `os.Stat` on `p/.git` fails with an error `e` that is not a
not-exist error, `IsGitCloned p` returns `(false, e)`, with `e` itself. -/
theorem IsGitCloned_other_error {σ : Type} (env : Env σ) (p : String) (fs : σ) (e : GoError)
    (hst : env.stat (env.join p ".git") fs = .error e)
    (hne : IsNotExist (some e) = false) :
    IsGitCloned env p fs = (false, some e) := by
  simp [IsGitCloned, hst, hne]

/-- C3 on an example disk where `/root/.git` cannot be reached (permission
denied). -/
theorem IsGitCloned_other_error_witness :
    demoEnv.stat (demoEnv.join "/root" ".git")
        { gitDirs := [], gitFiles := [], denied := ["/root/.git"] }
        = .error (.pathError "stat" "/root/.git" .EACCES) ∧
      IsNotExist (some (.pathError "stat" "/root/.git" .EACCES)) = false ∧
      IsGitCloned demoEnv "/root" { gitDirs := [], gitFiles := [], denied := ["/root/.git"] }
        = (false, some (.pathError "stat" "/root/.git" .EACCES)) :=
  ⟨by decide, by decide,
    IsGitCloned_other_error demoEnv "/root"
      { gitDirs := [], gitFiles := [], denied := ["/root/.git"] }
      (.pathError "stat" "/root/.git" .EACCES) (by decide) (by decide)⟩

/-! ## EnsureCloned -/

/-- C4: when `IsGitCloned p` returns `(true, nil)`, `EnsureCloned uri p` returns
nil and leaves the world as it was (no call is added to the trace, so no clone
is made), whatever `uri` is. -/
theorem EnsureCloned_already_cloned {σ : Type} (env : Env σ) (uri p : String) (w : World σ)
    (h : IsGitCloned env p w.fs = (true, none)) :
    EnsureCloned env uri p w = (.returned none, w) := by
  simp [EnsureCloned, h]

/-- C4 on the example disk: a first `EnsureCloned` on the empty disk returns nil
and leaves `/tmp/x` cloned; a second call, with another uri, changes nothing. -/
theorem EnsureCloned_already_cloned_witness :
    (EnsureCloned demoEnv "https://example.com/repo.git" "/tmp/x" emptyWorld).1
        = .returned none ∧
      IsGitCloned demoEnv "/tmp/x"
        (EnsureCloned demoEnv "https://example.com/repo.git" "/tmp/x" emptyWorld).2.fs
        = (true, none) ∧
      EnsureCloned demoEnv "https://example.org/other.git" "/tmp/x"
        (EnsureCloned demoEnv "https://example.com/repo.git" "/tmp/x" emptyWorld).2
        = (.returned none,
            (EnsureCloned demoEnv "https://example.com/repo.git" "/tmp/x" emptyWorld).2) :=
  ⟨by decide, by decide,
    EnsureCloned_already_cloned demoEnv "https://example.org/other.git" "/tmp/x"
      (EnsureCloned demoEnv "https://example.com/repo.git" "/tmp/x" emptyWorld).2 (by decide)⟩

/-- C5: on the example disk `/tmp/x` is not cloned and the clone fails with
`cloneError`.  When the failed `PlainClone` still hands back the repository,
`EnsureCloned` goes on to `Head`, `CommitObject` and `Println` and returns nil;
when it hands back nil, `EnsureCloned` panics at `r.Head()`.  In neither case
does it return an error wrapping `cloneError`. -/
theorem EnsureCloned_clone_error_dropped :
    IsGitCloned cloneFailsLateEnv "/tmp/x" emptyWorld.fs = (false, none) ∧
      (cloneFailsLateEnv.plainClone "/tmp/x" false
          { URL := "https://example.com/repo.git",
            RecurseSubmodules := DefaultSubmoduleRecursionDepth } emptyWorld.fs).2.1
        = some cloneError ∧
      CheckIfError (some cloneError) = () ∧
      (EnsureCloned cloneFailsLateEnv "https://example.com/repo.git" "/tmp/x" emptyWorld).1
        = .returned none ∧
      (EnsureCloned cloneFailsLateEnv "https://example.com/repo.git" "/tmp/x" emptyWorld).2.trace
        = [.info "git clone %s %s --recursive" ["", ""],
           .plainClone "/tmp/x" false
             { URL := "https://example.com/repo.git",
               RecurseSubmodules := DefaultSubmoduleRecursionDepth },
           .println "commit 6ecf0ef2"] ∧
      IsGitCloned cloneFailsNilEnv "/tmp/x" emptyWorld.fs = (false, none) ∧
      (cloneFailsNilEnv.plainClone "/tmp/x" false
          { URL := "https://example.com/repo.git",
            RecurseSubmodules := DefaultSubmoduleRecursionDepth } emptyWorld.fs).2.1
        = some cloneError ∧
      (EnsureCloned cloneFailsNilEnv "https://example.com/repo.git" "/tmp/x" emptyWorld).1
        = .panicked := by
  refine ⟨?_, ?_, ?_, ?_, ?_, ?_, ?_, ?_⟩ <;> decide

/-! ## updateAndCleanUntracked -/

/-- The result of `updateAndCleanUntracked` when the fetch fails. -/
lemma updateAndCleanUntracked_fetch_fails {σ : Type} (env : Env σ) (p : String) (w : World σ)
    (e : GoError) (h1 : fetchErr env p w.fs = some e) :
    updateAndCleanUntracked env p w =
      (some (.wrapf e "fetch index at %q failed" [p]),
        { fs := fetchFs env p w.fs, trace := w.trace ++ (gitSteps p).take 1 }) := by
  unfold fetchErr at h1
  simp [updateAndCleanUntracked, h1, Wrapf, fetchFs, gitSteps]

/-- The result of `updateAndCleanUntracked` when the fetch succeeds and the
reset fails. -/
lemma updateAndCleanUntracked_reset_fails {σ : Type} (env : Env σ) (p : String) (w : World σ)
    (e : GoError) (h1 : fetchErr env p w.fs = none) (h2 : resetErr env p w.fs = some e) :
    updateAndCleanUntracked env p w =
      (some (.wrapf e "reset index at %q failed" [p]),
        { fs := resetFs env p w.fs, trace := w.trace ++ (gitSteps p).take 2 }) := by
  unfold fetchErr at h1
  unfold resetErr fetchFs at h2
  simp [updateAndCleanUntracked, h1, h2, Wrapf, fetchFs, resetFs, gitSteps]

/-- The result of `updateAndCleanUntracked` when the fetch and the reset
succeed. -/
lemma updateAndCleanUntracked_reset_ok {σ : Type} (env : Env σ) (p : String) (w : World σ)
    (h1 : fetchErr env p w.fs = none) (h2 : resetErr env p w.fs = none) :
    updateAndCleanUntracked env p w =
      (Wrapf (cleanErr env p w.fs) "clean index at %q failed" [p],
        { fs := (env.exec p ["clean", "-xfd"] (resetFs env p w.fs)).2.2,
          trace := w.trace ++ gitSteps p }) := by
  unfold fetchErr at h1
  unfold resetErr fetchFs at h2
  simp [updateAndCleanUntracked, h1, h2, cleanErr, fetchFs, resetFs, gitSteps]

/-- C9: `updateAndCleanUntracked p` adds to the trace the first `k` of the calls
fetch, reset, clean, in that order, for some `1 ≤ k ≤ 3` (the three calls are
distinct, so each is added at most once): only the fetch when
the fetch fails, the fetch and the reset when the reset fails, all three when
both succeed; the clean is in the added calls only when fetch and reset both
succeeded. -/
theorem updateAndCleanUntracked_order {σ : Type} (env : Env σ) (p : String) (w : World σ) :
    (∃ k, 1 ≤ k ∧ k ≤ 3 ∧
        (updateAndCleanUntracked env p w).2.trace = w.trace ++ (gitSteps p).take k) ∧
      (gitSteps p).Nodup ∧
      (fetchErr env p w.fs ≠ none →
        (updateAndCleanUntracked env p w).2.trace = w.trace ++ (gitSteps p).take 1) ∧
      (fetchErr env p w.fs = none → resetErr env p w.fs ≠ none →
        (updateAndCleanUntracked env p w).2.trace = w.trace ++ (gitSteps p).take 2) ∧
      (fetchErr env p w.fs = none → resetErr env p w.fs = none →
        (updateAndCleanUntracked env p w).2.trace = w.trace ++ gitSteps p) ∧
      (Call.exec p ["clean", "-xfd"] ∈
          (updateAndCleanUntracked env p w).2.trace.drop w.trace.length →
        fetchErr env p w.fs = none ∧ resetErr env p w.fs = none) := by
  have hnd : (gitSteps p).Nodup := by simp [gitSteps]
  cases h1 : fetchErr env p w.fs with
  | some e =>
    rw [updateAndCleanUntracked_fetch_fails env p w e h1]
    refine ⟨⟨1, le_refl 1, by norm_num, rfl⟩, hnd, fun _ => rfl, ?_, ?_, ?_⟩
    · intro h; cases h
    · intro h; cases h
    · intro h
      simp [gitSteps] at h
  | none =>
    cases h2 : resetErr env p w.fs with
    | some e =>
      rw [updateAndCleanUntracked_reset_fails env p w e h1 h2]
      refine ⟨⟨2, by norm_num, by norm_num, rfl⟩, hnd, fun h => absurd rfl h, fun _ _ => rfl, ?_, ?_⟩
      · intro _ h; cases h
      · intro h
        simp [gitSteps] at h
    | none =>
      rw [updateAndCleanUntracked_reset_ok env p w h1 h2]
      refine ⟨⟨3, by norm_num, le_refl 3, by simp [gitSteps]⟩, hnd, fun h => absurd rfl h,
        fun _ h => absurd rfl h, fun _ _ => rfl, fun _ => ⟨rfl, rfl⟩⟩

/-- C9 on the example disk: a failing fetch leaves one call, a failing reset
two, and with all steps succeeding the three calls are made in order. -/
theorem updateAndCleanUntracked_order_witness :
    (updateAndCleanUntracked (execFailsEnv "fetch") "/repo" clonedWorld).2.trace
        = [.exec "/repo" ["fetch", "-v"]] ∧
      (updateAndCleanUntracked (execFailsEnv "reset") "/repo" clonedWorld).2.trace
        = [.exec "/repo" ["fetch", "-v"], .exec "/repo" ["reset", "--hard", "@\x7bupstream\x7d"]] ∧
      (updateAndCleanUntracked demoEnv "/repo" clonedWorld).2.trace
        = [.exec "/repo" ["fetch", "-v"], .exec "/repo" ["reset", "--hard", "@\x7bupstream\x7d"],
           .exec "/repo" ["clean", "-xfd"]] ∧
      (fetchErr demoEnv "/repo" clonedWorld.fs = none ∧
        resetErr demoEnv "/repo" clonedWorld.fs = none) :=
  ⟨(updateAndCleanUntracked_order (execFailsEnv "fetch") "/repo" clonedWorld).2.2.1 (by decide),
    (updateAndCleanUntracked_order (execFailsEnv "reset") "/repo" clonedWorld).2.2.2.1
      (by decide) (by decide),
    (updateAndCleanUntracked_order demoEnv "/repo" clonedWorld).2.2.2.2.1 (by decide) (by decide),
    (updateAndCleanUntracked_order demoEnv "/repo" clonedWorld).2.2.2.2.2 (by decide)⟩

/-- C10: `updateAndCleanUntracked p` returns nil exactly when fetch, reset and
clean all succeed; when a step fails with `e` the result is `e` wrapped by
`errors.Wrapf` with the format `"<step> index at %q failed"` and the argument
`p`, where `<step>` is `fetch`, `reset` or `clean`. -/
theorem updateAndCleanUntracked_result {σ : Type} (env : Env σ) (p : String) (w : World σ) :
    ((updateAndCleanUntracked env p w).1 = none ↔
        fetchErr env p w.fs = none ∧ resetErr env p w.fs = none ∧ cleanErr env p w.fs = none) ∧
      (∀ e, fetchErr env p w.fs = some e →
        (updateAndCleanUntracked env p w).1 = some (.wrapf e "fetch index at %q failed" [p])) ∧
      (∀ e, fetchErr env p w.fs = none → resetErr env p w.fs = some e →
        (updateAndCleanUntracked env p w).1 = some (.wrapf e "reset index at %q failed" [p])) ∧
      (∀ e, fetchErr env p w.fs = none → resetErr env p w.fs = none →
        cleanErr env p w.fs = some e →
        (updateAndCleanUntracked env p w).1 = some (.wrapf e "clean index at %q failed" [p])) := by
  cases h1 : fetchErr env p w.fs with
  | some e =>
    rw [updateAndCleanUntracked_fetch_fails env p w e h1]
    simp
  | none =>
    cases h2 : resetErr env p w.fs with
    | some e =>
      rw [updateAndCleanUntracked_reset_fails env p w e h1 h2]
      simp
    | none =>
      rw [updateAndCleanUntracked_reset_ok env p w h1 h2]
      cases h3 : cleanErr env p w.fs <;> simp [Wrapf]

/-- C10 on the example disk, one failing step at a time, then none. -/
theorem updateAndCleanUntracked_result_witness :
    (updateAndCleanUntracked (execFailsEnv "fetch") "/repo" clonedWorld).1
        = some (.wrapf (.plain "exit status 1") "fetch index at %q failed" ["/repo"]) ∧
      (updateAndCleanUntracked (execFailsEnv "reset") "/repo" clonedWorld).1
        = some (.wrapf (.plain "exit status 1") "reset index at %q failed" ["/repo"]) ∧
      (updateAndCleanUntracked (execFailsEnv "clean") "/repo" clonedWorld).1
        = some (.wrapf (.plain "exit status 1") "clean index at %q failed" ["/repo"]) ∧
      (updateAndCleanUntracked demoEnv "/repo" clonedWorld).1 = none :=
  ⟨(updateAndCleanUntracked_result (execFailsEnv "fetch") "/repo" clonedWorld).2.1
      (.plain "exit status 1") (by decide),
    (updateAndCleanUntracked_result (execFailsEnv "reset") "/repo" clonedWorld).2.2.1
      (.plain "exit status 1") (by decide) (by decide),
    (updateAndCleanUntracked_result (execFailsEnv "clean") "/repo" clonedWorld).2.2.2
      (.plain "exit status 1") (by decide) (by decide) (by decide),
    (updateAndCleanUntracked_result demoEnv "/repo" clonedWorld).1.2
      ⟨by decide, by decide, by decide⟩⟩

/-! ## EnsureUpdated -/

/-- `EnsureCloned` makes no `Exec` call: the `Exec` entries of the trace are the
same before and after. -/
lemma EnsureCloned_trace_isExec {σ : Type} (env : Env σ) (uri p : String) (w : World σ) :
    (EnsureCloned env uri p w).2.trace.filter Call.isExec = w.trace.filter Call.isExec := by
  unfold EnsureCloned
  split
  · rfl
  · simp only [Info, World.log]
    repeat' split
    all_goals simp [Call.isExec, World.log]
  · rfl

/-- C6: `EnsureUpdated uri p` runs `EnsureCloned uri p` first.  When that returns
an error, `EnsureUpdated` returns the same error in the world `EnsureCloned`
left, whose trace has no `Exec` call beyond those already there (no fetch,
reset or clean ran).  When it returns nil, the result and the world are those
of `updateAndCleanUntracked p` run next.  `EnsureUpdated` returns nil exactly
when both return nil. -/
theorem EnsureUpdated_spec {σ : Type} (env : Env σ) (uri p : String) (w : World σ) :
    (∀ err w1, EnsureCloned env uri p w = (.returned (some err), w1) →
        EnsureUpdated env uri p w = (.returned (some err), w1) ∧
          w1.trace.filter Call.isExec = w.trace.filter Call.isExec) ∧
      (∀ w1, EnsureCloned env uri p w = (.returned none, w1) →
        EnsureUpdated env uri p w =
          (.returned (updateAndCleanUntracked env p w1).1, (updateAndCleanUntracked env p w1).2)) ∧
      ((EnsureUpdated env uri p w).1 = .returned none ↔
        (EnsureCloned env uri p w).1 = .returned none ∧
          (updateAndCleanUntracked env p (EnsureCloned env uri p w).2).1 = none) := by
  refine ⟨?_, ?_, ?_⟩
  · intro err w1 h
    refine ⟨by simp [EnsureUpdated, h], ?_⟩
    have ht := EnsureCloned_trace_isExec env uri p w
    rw [h] at ht
    exact ht
  · intro w1 h
    simp [EnsureUpdated, h]
  · unfold EnsureUpdated
    rcases hc : EnsureCloned env uri p w with ⟨o, w1⟩
    cases o with
    | panicked => simp
    | returned r =>
      cases r with
      | some err => simp
      | none => simp

/-- C6 on the example disk: with `/denied/.git` unreachable `EnsureCloned` and
`EnsureUpdated` return the stat error and the trace stays empty; on the empty
disk the clone succeeds and is followed by the three git steps. -/
theorem EnsureUpdated_spec_witness :
    EnsureUpdated demoEnv "https://example.com/repo.git" "/denied"
        { fs := { gitDirs := [], gitFiles := [], denied := ["/denied/.git"] }, trace := [] }
        = (.returned (some (.pathError "stat" "/denied/.git" .EACCES)),
            { fs := { gitDirs := [], gitFiles := [], denied := ["/denied/.git"] }, trace := [] }) ∧
      (EnsureUpdated demoEnv "https://example.com/repo.git" "/tmp/x" emptyWorld).1
        = .returned none ∧
      (EnsureUpdated demoEnv "https://example.com/repo.git" "/tmp/x" emptyWorld).2.trace.filter
          Call.isExec = gitSteps "/tmp/x" :=
  ⟨((EnsureUpdated_spec demoEnv "https://example.com/repo.git" "/denied"
        { fs := { gitDirs := [], gitFiles := [], denied := ["/denied/.git"] }, trace := [] }).1
      (.pathError "stat" "/denied/.git" .EACCES)
      { fs := { gitDirs := [], gitFiles := [], denied := ["/denied/.git"] }, trace := [] }
      (by decide)).1,
    (EnsureUpdated_spec demoEnv "https://example.com/repo.git" "/tmp/x" emptyWorld).2.2.2
      ⟨by decide, by decide⟩,
    by decide⟩

/-! ## GetRemoteURL -/

/-- C7: on the example working copy `/repo`, whose origin has the URL list
`["git@example.com:repo.git"]`, `GetRemoteURL` prints the URL and returns the
result of `fmt.Println`, the count 25 of bytes written and a nil error; it does
not return the URL string. -/
theorem GetRemoteURL_returns_println_result :
    demoEnv.plainOpen "/repo" clonedWorld.fs = (some { dir := "/repo" }, none) ∧
      demoEnv.remote { dir := "/repo" } "origin" clonedWorld.fs
        = (some { config := { Name := "origin", URLs := ["git@example.com:repo.git"] } }, none) ∧
      GetRemoteURL demoEnv "/repo" clonedWorld
        = (.returned (.int 25, none),
            { fs := clonedWorld.fs,
              trace := [.info "git config --get remote.origin.url" [],
                        .println "git@example.com:repo.git"] }) ∧
      (GetRemoteURL demoEnv "/repo" clonedWorld).1
        ≠ .returned (.str "git@example.com:repo.git", none) := by
  refine ⟨?_, ?_, ?_, ?_⟩ <;> decide

/-- C8: on the example disk `GetRemoteURL` panics, and so returns no error, in
each of the three cases: `/tmp/none` is not a working copy (`r.Remote` on the
nil repository), the working copy `/repo` has no `origin` remote
(`origin.Config()` on the nil remote), its `origin` has no URL (`URLs[0]` on the
empty list). -/
theorem GetRemoteURL_panics :
    (demoEnv.plainOpen "/tmp/none" emptyWorld.fs
        = (none, some (.plain "repository does not exist")) ∧
      (GetRemoteURL demoEnv "/tmp/none" emptyWorld).1 = .panicked) ∧
    (noOriginEnv.remote { dir := "/repo" } "origin" clonedWorld.fs
        = (none, some (.plain "remote not found")) ∧
      (GetRemoteURL noOriginEnv "/repo" clonedWorld).1 = .panicked) ∧
    (noURLEnv.remote { dir := "/repo" } "origin" clonedWorld.fs
        = (some { config := { Name := "origin", URLs := [] } }, none) ∧
      (GetRemoteURL noURLEnv "/repo" clonedWorld).1 = .panicked) := by
  refine ⟨⟨?_, ?_⟩, ⟨?_, ?_⟩, ⟨?_, ?_⟩⟩ <;> decide

end gitutil
